import Mathlib

/-!
Verification development for a rule-based dental-clinic front-desk agent
(`main.py`). The dialogue policy engine, the text heuristics, the ticket
issuer and the in-memory stores are embedded as pure Lean functions:
strings are Lean `String`s (character lists), the mutable module-level
stores become an explicit `Store` value threaded through the handlers, and
the wall-clock timestamp of a ticket is passed in as a parameter `now`.
Python's truthiness test `not s` on an optional string field is modelled
by `blankOpt` (`none` and `some ""` are both falsy).
-/

namespace Frontdesk

/-- ASCII apostrophe, kept out of string literals. -/
def apos : String := String.singleton (Char.ofNat 39)

/-- Index of the first occurrence of `needle` in a character list
(Python `str.find`, as an `Option`). -/
def strFindAux (needle : List Char) : List Char → Option Nat
  | [] => if needle.isPrefixOf ([] : List Char) then some 0 else none
  | c :: t =>
    if needle.isPrefixOf (c :: t) then some 0
    else (strFindAux needle t).map (fun i => i + 1)

/-- Python `hay.find(needle)`: index of first occurrence, `none` for `-1`. -/
def strFind (hay needle : String) : Option Nat :=
  strFindAux needle.toList hay.toList

/-- Python `needle in hay`. -/
def containsSub (hay needle : String) : Bool :=
  (strFind hay needle).isSome

/-- Python `str.lower` (ASCII case folding). -/
def lower (s : String) : String := ⟨s.toList.map Char.toLower⟩

/-- Python slice `s[:n]` (by characters). -/
def strTake (s : String) (n : Nat) : String := ⟨s.toList.take n⟩

/-- Python slice `s[n:]` (by characters). -/
def strDrop (s : String) (n : Nat) : String := ⟨s.toList.drop n⟩

/-- Python `str.strip()`: whitespace removed from both ends. -/
def strStrip (s : String) : String :=
  ⟨((s.toList.dropWhile Char.isWhitespace).reverse.dropWhile Char.isWhitespace).reverse⟩

/-- Python `str.lstrip(chars)`. -/
def lstripChars (s : String) (cs : List Char) : String :=
  ⟨s.toList.dropWhile (fun c => cs.contains c)⟩

/-- Python truthiness of an `Optional[str]`: `None` and `""` are falsy. -/
def blankOpt : Option String → Bool
  | none => true
  | some s => s.toList.isEmpty

/-- One truncation step of the extraction loops: find `stop` in the
lower-cased candidate, cut there and strip (a no-op when absent). -/
def cutOne (cand : String) (stop : String) : String :=
  match strFind (lower cand) stop with
  | some i => strStrip (strTake cand i)
  | none => cand

/-- The `for stop in [...]` truncation loops of `update_collected_from_text`. -/
def cutStops (stops : List String) (cand : String) : String :=
  stops.foldl cutOne cand

/-- First label of `keys` (in list order) found in `tl`, with its position:
the `for key in [...]: pos = tl.find(key); if pos != -1: ...; break` pattern. -/
def firstLabel (tl : String) (keys : List String) : Option (String × Nat) :=
  keys.findSome? (fun k => (strFind tl k).map (fun pos => (k, pos)))

/-- Python `"".join(ch for ch in s if ch.isdigit() or ch == "+")`. -/
def keepDigitsPlus (s : String) : String :=
  ⟨s.toList.filter (fun c => c.isDigit || c == '+')⟩

/-- Python `len(digits.replace("+", ""))`. -/
def countNonPlus (s : String) : Nat :=
  (s.toList.filter (fun c => c != '+')).length

/-- Number of digit characters in a string. -/
def digitCount (s : String) : Nat :=
  (s.toList.filter (fun c => c.isDigit)).length

-- ---------------------------
-- Clinic configuration
-- ---------------------------

def clinic_name : String := "Example Dental Clinic"
def clinic_address : String := "Example Street 12, 1010 Vienna"
def clinic_hours : String := "Mon–Fri 08:00–18:00"
def clinic_parking : String := "Street parking nearby. Nearest garage: Example Garage (3 min walk)."
def clinic_public_transport : String := "U1/U3 to Stephansplatz, then 5 min walk (demo text)."
def clinic_cancellation_policy : String := "Please cancel or reschedule at least 24 hours in advance."
def clinic_insurance : String := "We accept public insurance and private pay (demo)."
def clinic_emergency_note : String :=
  "If you have severe swelling, fever, heavy bleeding, trouble swallowing/breathing, or rapidly worsening pain, seek urgent care immediately."
def clinic_services : List String :=
  ["Check-ups & consultations", "Professional cleaning", "Fillings",
   "Root canal treatment (by assessment)", "Crowns/bridges",
   "Implants (by assessment)", "Kids dentistry", "Emergency pain consultations"]
def clinic_what_to_bring : String :=
  "E-card/insurance card, photo ID, medication list (if any), and prior dental records if available."

-- ---------------------------
-- FAQ catalog
-- ---------------------------

structure FaqItem where
  key : String
  keywords : List String
  answer : String
  forces_contact_flow : Bool := false
deriving DecidableEq, Repr

def FAQ : List FaqItem :=
  [{ key := "hours",
     keywords := ["hours", "opening", "open", "close", "closing", "weekend", "saturday", "sunday", "today", "tomorrow"],
     answer := "Our opening hours are: " ++ clinic_hours ++ "." },
   { key := "location_parking",
     keywords := ["address", "location", "where", "parking", "park", "garage", "public transport", "tram", "metro", "u-bahn", "bus"],
     answer := "Address: " ++ clinic_address ++ ".\n" ++ "Parking: " ++ clinic_parking ++ "\n"
       ++ "Public transport: " ++ clinic_public_transport },
   { key := "booking",
     keywords := ["appointment", "book", "booking", "schedule", "available", "availability"],
     answer := "I can help arrange an appointment request. Please share your **name**, **phone number**, and the **best time window** to reach you.",
     forces_contact_flow := true },
   { key := "reschedule_cancel",
     keywords := ["reschedule", "change appointment", "move appointment", "cancel", "cancellation"],
     answer := "To cancel or reschedule, please share your **name**, **phone number**, and your preferred new time window.\n\n"
       ++ "Policy: " ++ clinic_cancellation_policy,
     forces_contact_flow := true },
   { key := "emergency",
     keywords := ["emergency", "urgent", "swelling", "bleeding", "fever", "can’t breathe", "can" ++ apos ++ "t breathe", "hard to swallow", "severe pain"],
     answer := clinic_emergency_note ++ "\n\n"
       ++ "If you want a same-day assessment, share your **name**, **phone number**, and **best time** to call.",
     forces_contact_flow := true },
   { key := "services",
     keywords := ["services", "do you do", "offer", "cleaning", "filling", "implant", "braces", "root canal", "kids", "child"],
     answer := "We offer:\n- " ++ String.intercalate "\n- " clinic_services
       ++ "\n\nIf you" ++ apos ++ "d like, tell me what you need and I can arrange a callback." },
   { key := "pricing_insurance",
     keywords := ["price", "pricing", "cost", "how much", "insurance", "kassa", "private", "payment"],
     answer := "Pricing depends on the service and insurance coverage. " ++ clinic_insurance ++ "\n"
       ++ "If you tell me which service you’re asking about (e.g., cleaning, filling, implant), "
       ++ "I can arrange a callback with an estimated range." },
   { key := "what_to_bring",
     keywords := ["what to bring", "bring", "documents", "paperwork", "e-card", "id", "records", "first visit", "new patient"],
     answer := "For your visit, please bring: " ++ clinic_what_to_bring }]

/-- Any keyword of `item` occurs as a substring of the (lower-cased) text. -/
def hitsKeywords (tl : String) (item : FaqItem) : Bool :=
  item.keywords.any (fun k => containsSub tl k)

/-- The `for item in FAQ` loop of `match_faq_intent`: first hit wins. -/
def match_faq_loop (tl : String) : List FaqItem → Option FaqItem
  | [] => none
  | item :: rest =>
    if hitsKeywords tl item then some item else match_faq_loop tl rest

/-- `match_faq_intent(text)`. -/
def match_faq_intent (text : String) : Option FaqItem :=
  match_faq_loop (lower text) FAQ

-- ---------------------------
-- Policy + state machine data model
-- ---------------------------

inductive Step where
  | LIMITED_RESPONSE
  | COLLECT_CONTACT
  | HANDOFF
deriving DecidableEq, Repr

structure Collected where
  name : Option String := none
  phone : Option String := none
  best_time : Option String := none
deriving DecidableEq, Repr

structure SessionState where
  step : Step := Step.LIMITED_RESPONSE
  procedure : Option String := none
  intent : Option String := none
  collected : Collected := {}
deriving DecidableEq, Repr

/-- `is_medical_or_medication_question`'s keyword list. -/
def medicalKeywords : List String :=
  ["antibiotic", "antibiotics", "amoxicillin", "penicillin", "clindamycin",
   "medicine", "medication", "dose", "dosage", "should i",
   "ibuprofen", "painkiller", "prescription"]

/-- `is_medical_or_medication_question(text)`. -/
def is_medical_or_medication_question (text : String) : Bool :=
  medicalKeywords.any (fun k => containsSub (lower text) k)

/-- `limited_response_policy(practice_name)`. -/
def limited_response_policy (practice_name : String) : String :=
  "Thanks for your question. I can’t recommend specific medication (including antibiotics) "
  ++ "without a clinician evaluating your situation.\n\n"
  ++ "If you have severe swelling, fever, trouble swallowing/breathing, or rapidly worsening pain, "
  ++ "please seek urgent care immediately.\n\n"
  ++ "If not urgent: the safest next step is to speak with a dentist from " ++ practice_name ++ ". "
  ++ "Can I take your **name** and **phone number**, and the **best time** to call you back?"

-- ---------------------------
-- Contact-field extraction (`update_collected_from_text`)
-- ---------------------------

def phoneKeys : List String :=
  ["phone:", "phone=", "phone-", "tel:", "tel=", "tel-", "mobile:", "mobile=", "mobile-"]

/-- Label-based phone extraction: first labelled candidate, truncated at the
stop boundaries, digit/plus-stripped, accepted at nine or more digits. -/
def phoneFromLabel (text tl : String) : Option String :=
  match firstLabel tl phoneKeys with
  | none => none
  | some kp =>
    let cand := cutStops [" best time", " name", ",", ";", "."]
      (strStrip (strDrop text (kp.2 + kp.1.toList.length)))
    let digits := keepDigitsPlus cand
    if 9 ≤ countNonPlus digits then some digits else none

/-- Fallback phone extraction over the whole message. -/
def phoneFallback (text : String) : Option String :=
  let digits := keepDigitsPlus text
  if 9 ≤ countNonPlus digits then some digits else none

def bestTimePhrases : List String :=
  ["tomorrow morning", "tomorrow afternoon", "tomorrow evening",
   "today morning", "today afternoon", "today evening",
   "tomorrow", "today", "anytime"]

/-- Best-time extraction: the fragment after the `"best time"` marker, or the
first canned phrase contained in the text. -/
def bestTimeFromText (text tl : String) : Option String :=
  match strFind tl "best time" with
  | some start =>
    let best0 := strStrip (strDrop text start)
    let best1 :=
      if "best time".toList.isPrefixOf (lower best0).toList then
        strStrip (lstripChars (strDrop best0 9) [' ', ':', ',', '-', '='])
      else best0
    let best2 := cutStops [" phone", " name", ".", ";", "|"] best1
    if best2.toList.isEmpty then none else some best2
  | none => bestTimePhrases.find? (fun ph => containsSub tl ph)

def nameKeys : List String := ["name:", "name=", "name-"]

/-- Label-based name extraction, accepted at two or more characters and
truncated to eighty. -/
def nameFromLabel (text tl : String) : Option String :=
  match firstLabel tl nameKeys with
  | none => none
  | some kp =>
    let cand := cutStops [" phone", " best time", ",", ";", "."]
      (strStrip (strDrop text (kp.2 + kp.1.toList.length)))
    if 2 ≤ cand.toList.length then some (strTake cand 80) else none

def namePhrases : List String := ["my name is ", "i am ", "i" ++ apos ++ "m "]

/-- Phrase-based name extraction (`"my name is"`, `"i am"`, `"i'm"`). -/
def nameFromPhrase (text tl : String) : Option String :=
  match firstLabel tl namePhrases with
  | none => none
  | some kp =>
    let cand := cutStops [" phone", " best time", ".", ",", ";", " and "]
      (strStrip (strDrop text (kp.2 + kp.1.toList.length)))
    if 2 ≤ cand.toList.length then some (strTake cand 80) else none

/-- Write `cand` into `old` only when `old` is falsy and `cand` produced a
value (the `if not state.collected.x: ... state.collected.x = v` pattern). -/
def setIfBlank (old cand : Option String) : Option String :=
  if blankOpt old then
    match cand with
    | some v => some v
    | none => old
  else old

/-- The field updates of `update_collected_from_text` on the `collected`
record; `text` is the stripped message. -/
def updateCollected (c : Collected) (text : String) : Collected :=
  { name := setIfBlank (setIfBlank c.name (nameFromLabel text (lower text))) (nameFromPhrase text (lower text)),
    phone := setIfBlank (setIfBlank c.phone (phoneFromLabel text (lower text))) (phoneFallback text),
    best_time := setIfBlank c.best_time (bestTimeFromText text (lower text)) }

/-- `update_collected_from_text(state, user_text)` (returning the new state
instead of mutating in place). -/
def update_collected_from_text (state : SessionState) (user_text : String) : SessionState :=
  { state with collected := updateCollected state.collected (strStrip user_text) }

-- ---------------------------
-- State machine (`next_reply`)
-- ---------------------------

/-- The `name → phone → best time` missing-field list, with the human labels. -/
def missingList (c : Collected) : List String :=
  (if blankOpt c.name then ["name"] else [])
  ++ (if blankOpt c.phone then ["phone number"] else [])
  ++ (if blankOpt c.best_time then ["best time to call"] else [])

/-- The handoff confirmation echoing the captured fields (used only when all
three fields are non-blank, so the defaults are never printed). -/
def handoffText (practice_name : String) (c : Collected) : String :=
  "Thanks, " ++ c.name.getD "" ++ ". I’ve captured your details.\n\n"
  ++ "Phone: " ++ c.phone.getD "" ++ "\n"
  ++ "Best time: " ++ c.best_time.getD "" ++ "\n\n"
  ++ "Someone from " ++ practice_name ++ " will contact you shortly."

/-- `next_reply(practice_name, user_text, state)`: the ordered policy
(medical gate, FAQ routing, contact collection, terminal acknowledgment),
returning the reply and the new state. -/
def next_reply (practice_name user_text : String) (state : SessionState) : String × SessionState :=
  if is_medical_or_medication_question user_text then
    (limited_response_policy practice_name, { state with step := Step.LIMITED_RESPONSE })
  else
    match match_faq_intent user_text with
    | some faq =>
      if faq.forces_contact_flow then
        let st1 := update_collected_from_text { state with step := Step.COLLECT_CONTACT } user_text
        let missing := missingList st1.collected
        if missing.isEmpty then
          let st2 := { st1 with step := Step.HANDOFF }
          (faq.answer ++ "\n\n" ++ handoffText practice_name st2.collected, st2)
        else
          (faq.answer ++ "\n\nTo proceed, I still need your " ++ String.intercalate ", " missing ++ ".", st1)
      else
        if state.step ≠ Step.COLLECT_CONTACT then (faq.answer, state)
        else
          let missing := missingList state.collected
          (if missing.isEmpty then faq.answer
           else faq.answer ++ "\n\nTo proceed, I still need your " ++ String.intercalate ", " missing ++ ".",
           state)
    | none =>
      if state.step = Step.LIMITED_RESPONSE ∨ state.step = Step.COLLECT_CONTACT then
        let st1 := update_collected_from_text state user_text
        let missing := missingList st1.collected
        if missing.isEmpty then
          let st2 := { st1 with step := Step.HANDOFF }
          (handoffText practice_name st2.collected, st2)
        else
          ("To arrange a callback, I still need your " ++ String.intercalate ", " missing
             ++ ". You can reply in one message like: “Name: …, Phone: …, Best time: …”.",
           { st1 with step := Step.COLLECT_CONTACT })
      else
        ("Thanks — your request is with the team at " ++ practice_name ++ ".", state)

-- ---------------------------
-- Ticketing and stores
-- ---------------------------

structure Ticket where
  ticket_id : String
  created_at : String
  session_id : String
  practice_name : String
  name : String
  phone : String
  best_time : String
  summary : String
  status : String := "OPEN"
deriving DecidableEq, Repr

/-- The module-level mutable state: `SESSION_DB`, `TICKET_DB`, `TICKET_COUNTER`. -/
structure Store where
  sessions : String → Option SessionState
  tickets : List Ticket
  counter : Nat

def emptyStore : Store := { sessions := fun _ => none, tickets := [], counter := 0 }

/-- Python `f"{n:04d}"` for a natural number: zero-pad to four digits,
wider values print in full. -/
def pad4 (n : Nat) : String :=
  let s := Nat.repr n
  if s.toList.length < 4 then ⟨List.replicate (4 - s.toList.length) '0'⟩ ++ s else s

/-- `create_ticket(session_id, practice_name, state, summary)`; `now` stands
for `datetime.utcnow().isoformat(timespec="seconds") + "Z"`. -/
def create_ticket (now session_id practice_name : String) (state : SessionState)
    (summary : String) (store : Store) : Ticket × Store :=
  let counter := store.counter + 1
  let ticket : Ticket :=
    { ticket_id := "T-" ++ pad4 counter,
      created_at := now,
      session_id := session_id,
      practice_name := practice_name,
      name := state.collected.name.getD "",
      phone := state.collected.phone.getD "",
      best_time := state.collected.best_time.getD "",
      summary := summary,
      status := "OPEN" }
  (ticket, { store with counter := counter, tickets := ticket :: store.tickets })

structure IncomingMessage where
  session_id : String
  user_message : String
  channel : String := "webchat"
  practice_name : String := "Example Dental Clinic"
  prior_state : Option SessionState := none
  msg : Option String := none
  state : Option SessionState := none
deriving Repr

structure TicketInfo where
  ticket_id : String
  status : String
  created_at : String
deriving DecidableEq, Repr

structure OutgoingMessage where
  session_id : String
  channel : String
  practice_name : String
  user_message : String
  reply : String
  state : SessionState
  ticket : Option TicketInfo
deriving Repr

/-- `get_state(payload)`: payload state, then prior state, then stored state,
then the default. -/
def get_state (payload : IncomingMessage) (sessions : String → Option SessionState) : SessionState :=
  match payload.state with
  | some s => s
  | none =>
    match payload.prior_state with
    | some s => s
    | none =>
      match sessions payload.session_id with
      | some s => s
      | none => {}

/-- `save_state(session_id, state)` on the session map. -/
def save_state (session_id : String) (st : SessionState)
    (sessions : String → Option SessionState) : String → Option SessionState :=
  fun k => if k = session_id then some st else sessions k

/-- The ticket-issuing condition of `webchat_message`: the step snapshotted
before the turn is not `HANDOFF` and the new step is `HANDOFF`. -/
def ticketEdge (payload : IncomingMessage) (store : Store) : Prop :=
  (get_state payload store.sessions).step ≠ Step.HANDOFF
  ∧ (next_reply payload.practice_name payload.user_message (get_state payload store.sessions)).2.step = Step.HANDOFF

instance (payload : IncomingMessage) (store : Store) : Decidable (ticketEdge payload store) := by
  unfold ticketEdge; infer_instance

/-- The `/webchat/message` handler. The Python code snapshots `old_step`
before `next_reply` mutates the state in place; in this pure model
`(get_state ...).step` is that snapshot. -/
def webchat_message (now : String) (payload : IncomingMessage) (store : Store) :
    OutgoingMessage × Store :=
  let old_state := get_state payload store.sessions
  let r := next_reply payload.practice_name payload.user_message old_state
  let store1 : Store := { store with sessions := save_state payload.session_id r.2 store.sessions }
  if old_state.step ≠ Step.HANDOFF ∧ r.2.step = Step.HANDOFF then
    let tr := create_ticket now payload.session_id payload.practice_name r.2
      ("Callback requested. Latest user message: " ++ strTake payload.user_message 140) store1
    ({ session_id := payload.session_id, channel := payload.channel,
       practice_name := payload.practice_name, user_message := payload.user_message,
       reply := r.1 ++ "\n\n✅ Callback ticket created: " ++ tr.1.ticket_id,
       state := r.2,
       ticket := some { ticket_id := tr.1.ticket_id, status := tr.1.status, created_at := tr.1.created_at } },
     tr.2)
  else
    ({ session_id := payload.session_id, channel := payload.channel,
       practice_name := payload.practice_name, user_message := payload.user_message,
       reply := r.1, state := r.2, ticket := none },
     store1)

/-- The `/admin/reset_session/{session_id}` handler on the stores: drop the
session entry, drop the tickets of that session. -/
def reset_session (session_id : String) (store : Store) : Store :=
  { sessions := fun k => if k = session_id then none else store.sessions k,
    tickets := store.tickets.filter (fun t => t.session_id != session_id),
    counter := store.counter }

-- ---------------------------
-- Concrete fixtures used by witnesses and counterexamples
-- ---------------------------

def defaultState : SessionState := {}

def handedState : SessionState :=
  { step := Step.HANDOFF,
    collected := { name := some "Alex", phone := some "+43123456789", best_time := some "5pm" } }

def collectingState : SessionState := { step := Step.COLLECT_CONTACT }

def blankNameState : SessionState := { collected := { name := some "" } }

def presetNameState : SessionState :=
  { step := Step.COLLECT_CONTACT, collected := { name := some "Alex" } }

def phoneMsg : String := "My phone is 0043 664 1234567"

def faqNameMsg : String := "what are your hours? my name is Alex Smith"

def helloPayload : IncomingMessage := { session_id := "s", user_message := "hello" }

def bookingPayload : IncomingMessage :=
  { session_id := "s", user_message := "Name: Alex, Phone: +43123456789, Best time: 5pm" }

def ackPayload : IncomingMessage := { session_id := "s", user_message := "thanks" }

def handedStore : Store :=
  { sessions := fun k => if k = "s" then some handedState else none, tickets := [], counter := 0 }

def tickA : Ticket :=
  { ticket_id := "T-0001", created_at := "2026-01-01T00:00:00Z", session_id := "a",
    practice_name := clinic_name, name := "Alex", phone := "+43123456789",
    best_time := "5pm", summary := "Callback requested.", status := "OPEN" }

def tickB : Ticket :=
  { ticket_id := "T-0002", created_at := "2026-01-01T00:01:00Z", session_id := "b",
    practice_name := clinic_name, name := "Kim", phone := "+43987654321",
    best_time := "noon", summary := "Callback requested.", status := "OPEN" }

def resetStore : Store :=
  { sessions := fun k => if k = "a" then some handedState else none,
    tickets := [tickA, tickB], counter := 2 }

-- ---------------------------
-- Helper lemmas
-- ---------------------------

theorem match_loop_first (tl : String) (l : List FaqItem) (i : Nat) (hi : i < l.length)
    (hhit : hitsKeywords tl (l.get ⟨i, hi⟩) = true)
    (hmin : ∀ j (hj : j < i), hitsKeywords tl (l.get ⟨j, Nat.lt_trans hj hi⟩) = false) :
    match_faq_loop tl l = some (l.get ⟨i, hi⟩) := by
  induction l generalizing i with
  | nil => exact absurd hi (Nat.not_lt_zero i)
  | cons a rest ih =>
    cases i with
    | zero =>
      simp only [List.get] at hhit ⊢
      simp [match_faq_loop, hhit]
    | succ n =>
      have h0 : hitsKeywords tl a = false := by
        have := hmin 0 (Nat.succ_pos n)
        simpa [List.get] using this
      have hi' : n < rest.length := Nat.lt_of_succ_lt_succ hi
      have hhit' : hitsKeywords tl (rest.get ⟨n, hi'⟩) = true := by
        simpa [List.get] using hhit
      have hmin' : ∀ j (hj : j < n),
          hitsKeywords tl (rest.get ⟨j, Nat.lt_trans hj hi'⟩) = false := by
        intro j hj
        have := hmin (j + 1) (Nat.succ_lt_succ hj)
        simpa [List.get] using this
      simp only [List.get]
      simp only [match_faq_loop, h0, Bool.false_eq_true, if_false]
      exact ih n hi' hhit' hmin'

theorem blankOpt_some_of_nonempty (v : String) (h : v.toList.isEmpty = false) :
    blankOpt (some v) = false := h

theorem setIfBlank_none (old : Option String) : setIfBlank old none = old := by
  unfold setIfBlank; split <;> rfl

theorem setIfBlank_not_blank (old cand : Option String) (h : blankOpt old = false) :
    setIfBlank old cand = old := by
  simp [setIfBlank, h]

theorem setIfBlank_blank_some (old : Option String) (v : String) (h : blankOpt old = true) :
    setIfBlank old (some v) = some v := by
  simp [setIfBlank, h]

theorem nonempty_of_pos (l : List Char) (h : 0 < l.length) : l.isEmpty = false := by
  cases l with
  | nil => simp at h
  | cons a t => rfl

theorem strTake_nonempty (s : String) (n : Nat) (hn : 0 < n) (hs : 0 < s.toList.length) :
    (strTake s n).toList.isEmpty = false := by
  apply nonempty_of_pos
  show 0 < (s.toList.take n).length
  rw [List.length_take]
  exact Nat.lt_min.mpr ⟨hn, hs⟩

theorem all_keepDigitsPlus (s : String) :
    (keepDigitsPlus s).toList.all (fun c => c.isDigit || c == '+') = true := by
  have he : (keepDigitsPlus s).toList = s.toList.filter (fun c => c.isDigit || c == '+') := rfl
  rw [he]
  apply List.all_eq_true.mpr
  intro c hc
  exact (List.mem_filter.mp hc).2

theorem phoneFromLabel_some (text tl d : String) (h : phoneFromLabel text tl = some d) :
    9 ≤ countNonPlus d ∧ d.toList.all (fun c => c.isDigit || c == '+') = true := by
  unfold phoneFromLabel at h
  cases hfl : firstLabel tl phoneKeys with
  | none => rw [hfl] at h; exact absurd h (by simp)
  | some kp =>
    rw [hfl] at h
    simp only [] at h
    split at h
    case isTrue hge =>
      injection h with h'
      subst h'
      exact ⟨hge, all_keepDigitsPlus _⟩
    case isFalse => exact absurd h (by simp)

theorem phoneFallback_some (text d : String) (h : phoneFallback text = some d) :
    9 ≤ countNonPlus d ∧ d.toList.all (fun c => c.isDigit || c == '+') = true := by
  unfold phoneFallback at h
  simp only [] at h
  split at h
  case isTrue hge =>
    injection h with h'
    subst h'
    exact ⟨hge, all_keepDigitsPlus _⟩
  case isFalse => exact absurd h (by simp)

theorem nonempty_of_nine (d : String) (h : 9 ≤ countNonPlus d) : d.toList.isEmpty = false := by
  have hle : countNonPlus d ≤ d.toList.length := List.length_filter_le _ _
  exact nonempty_of_pos _ (by omega)

theorem phoneFromLabel_nonempty (text tl v : String) (h : phoneFromLabel text tl = some v) :
    v.toList.isEmpty = false :=
  nonempty_of_nine v (phoneFromLabel_some text tl v h).1

theorem phoneFallback_nonempty (text v : String) (h : phoneFallback text = some v) :
    v.toList.isEmpty = false :=
  nonempty_of_nine v (phoneFallback_some text v h).1

theorem if_isEmpty_some (X v : String)
    (h : (if X.toList.isEmpty then none else some X) = some v) :
    v.toList.isEmpty = false := by
  split at h
  · exact absurd h (by simp)
  · rename_i hne
    have hxv : X = v := by injection h
    subst hxv
    simpa using hne

theorem bestTimeFromText_nonempty (text tl v : String) (h : bestTimeFromText text tl = some v) :
    v.toList.isEmpty = false := by
  unfold bestTimeFromText at h
  cases hfl : strFind tl "best time" with
  | some start =>
    rw [hfl] at h
    simp only [] at h
    split at h
    · exact if_isEmpty_some _ v h
    · exact if_isEmpty_some _ v h
  | none =>
    rw [hfl] at h
    have hmem := List.mem_of_find?_eq_some h
    have hall : ∀ x ∈ bestTimePhrases, x.toList.isEmpty = false := by decide
    exact hall v hmem

theorem nameFromLabel_nonempty (text tl v : String) (h : nameFromLabel text tl = some v) :
    v.toList.isEmpty = false := by
  unfold nameFromLabel at h
  cases hfl : firstLabel tl nameKeys with
  | none => rw [hfl] at h; exact absurd h (by simp)
  | some kp =>
    rw [hfl] at h
    simp only [] at h
    split at h
    case isTrue hge =>
      injection h with h'
      subst h'
      exact strTake_nonempty _ 80 (by omega) (by omega)
    case isFalse => exact absurd h (by simp)

theorem nameFromPhrase_nonempty (text tl v : String) (h : nameFromPhrase text tl = some v) :
    v.toList.isEmpty = false := by
  unfold nameFromPhrase at h
  cases hfl : firstLabel tl namePhrases with
  | none => rw [hfl] at h; exact absurd h (by simp)
  | some kp =>
    rw [hfl] at h
    simp only [] at h
    split at h
    case isTrue hge =>
      injection h with h'
      subst h'
      exact strTake_nonempty _ 80 (by omega) (by omega)
    case isFalse => exact absurd h (by simp)

theorem strTake_sublist (s : String) (n : Nat) : (strTake s n).toList.Sublist s.toList :=
  List.take_sublist n s.toList

theorem strDrop_sublist (s : String) (n : Nat) : (strDrop s n).toList.Sublist s.toList :=
  List.drop_sublist n s.toList

theorem strStrip_sublist (s : String) : (strStrip s).toList.Sublist s.toList := by
  have h2 : ((s.toList.dropWhile Char.isWhitespace).reverse.dropWhile Char.isWhitespace).Sublist
      (s.toList.dropWhile Char.isWhitespace).reverse := List.dropWhile_sublist _
  have h3 := h2.reverse
  rw [List.reverse_reverse] at h3
  exact h3.trans (List.dropWhile_sublist _)

theorem cutOne_sublist (cand stop : String) : (cutOne cand stop).toList.Sublist cand.toList := by
  unfold cutOne
  split
  · exact (strStrip_sublist _).trans (strTake_sublist _ _)
  · exact List.Sublist.refl _

theorem cutStops_sublist (stops : List String) (cand : String) :
    (cutStops stops cand).toList.Sublist cand.toList := by
  induction stops generalizing cand with
  | nil => exact List.Sublist.refl _
  | cons s ss ih =>
    have h1 : cutStops (s :: ss) cand = cutStops ss (cutOne cand s) := rfl
    rw [h1]
    exact (ih (cutOne cand s)).trans (cutOne_sublist cand s)

theorem filter_length_le_of_sublist {l1 l2 : List Char} (p : Char → Bool) (h : l1.Sublist l2) :
    (l1.filter p).length ≤ (l2.filter p).length :=
  (h.filter p).length_le

theorem countNonPlus_keepDigitsPlus (s : String) :
    countNonPlus (keepDigitsPlus s) = digitCount s := by
  show ((s.toList.filter (fun c => c.isDigit || c == '+')).filter (fun c => c != '+')).length
    = (s.toList.filter (fun c => c.isDigit)).length
  rw [List.filter_filter]
  have hpt : ∀ c ∈ s.toList, ((c != '+') && (c.isDigit || c == '+')) = c.isDigit := by
    intro c _
    by_cases hc : c = '+'
    · subst hc; decide
    · have h1 : (c != '+') = true := bne_iff_ne.mpr hc
      have h2 : (c == '+') = false := beq_eq_false_iff_ne.mpr hc
      rw [h1, h2, Bool.true_and, Bool.or_false]
  rw [List.filter_congr hpt]

theorem phone_accept_none (text cand : String)
    (hsub : cand.toList.Sublist text.toList) (h : digitCount text < 9) :
    (if 9 ≤ countNonPlus (keepDigitsPlus cand) then some (keepDigitsPlus cand) else none)
      = none := by
  rw [if_neg]
  rw [countNonPlus_keepDigitsPlus]
  have hle : digitCount cand ≤ digitCount text :=
    filter_length_le_of_sublist (fun c => c.isDigit) hsub
  omega

theorem phoneFromLabel_none_of_few (text tl : String) (h : digitCount text < 9) :
    phoneFromLabel text tl = none := by
  unfold phoneFromLabel
  cases hfl : firstLabel tl phoneKeys with
  | none => rfl
  | some kp =>
    simp only []
    exact phone_accept_none text _
      (((cutStops_sublist _ _).trans (strStrip_sublist _)).trans (strDrop_sublist _ _)) h

theorem phoneFallback_none_of_few (text : String) (h : digitCount text < 9) :
    phoneFallback text = none := by
  unfold phoneFallback
  simp only []
  exact phone_accept_none text text (List.Sublist.refl _) h

theorem setIfBlank_twice_one (old F : Option String)
    (hF : ∀ v, F = some v → v.toList.isEmpty = false) :
    setIfBlank (setIfBlank old F) F = setIfBlank old F := by
  cases hb : blankOpt old with
  | false => rw [setIfBlank_not_blank old F hb, setIfBlank_not_blank old F hb]
  | true =>
    cases hFc : F with
    | none => rw [setIfBlank_none, setIfBlank_none]
    | some v =>
      rw [setIfBlank_blank_some old v hb]
      exact setIfBlank_not_blank (some v) (some v)
        (blankOpt_some_of_nonempty v (hF v hFc))

theorem setIfBlank_twice_two (old L F : Option String)
    (hL : ∀ v, L = some v → v.toList.isEmpty = false)
    (hF : ∀ v, F = some v → v.toList.isEmpty = false) :
    setIfBlank (setIfBlank (setIfBlank (setIfBlank old L) F) L) F
      = setIfBlank (setIfBlank old L) F := by
  cases hb : blankOpt old with
  | false =>
    have e1 := setIfBlank_not_blank old L hb
    have e2 := setIfBlank_not_blank old F hb
    rw [e1, e2, e1, e2]
  | true =>
    cases hLc : L with
    | some v =>
      have hnb : blankOpt (some v) = false := blankOpt_some_of_nonempty v (hL v hLc)
      rw [setIfBlank_blank_some old v hb]
      rw [setIfBlank_not_blank (some v) F hnb]
      rw [setIfBlank_not_blank (some v) (some v) hnb]
      rw [setIfBlank_not_blank (some v) F hnb]
    | none =>
      simp only [setIfBlank_none]
      exact setIfBlank_twice_one old F hF

theorem webchat_state (now : String) (payload : IncomingMessage) (store : Store) :
    (webchat_message now payload store).1.state
      = (next_reply payload.practice_name payload.user_message (get_state payload store.sessions)).2 := by
  simp only [webchat_message]
  split <;> rfl

theorem webchat_sessions (now : String) (payload : IncomingMessage) (store : Store) :
    (webchat_message now payload store).2.sessions
      = save_state payload.session_id
          (next_reply payload.practice_name payload.user_message (get_state payload store.sessions)).2
          store.sessions := by
  simp only [webchat_message]
  split <;> rfl

theorem webchat_pos (now : String) (payload : IncomingMessage) (store : Store)
    (h : ticketEdge payload store) :
    (webchat_message now payload store).1.ticket.isSome = true
    ∧ (webchat_message now payload store).2.tickets.length = store.tickets.length + 1 := by
  have hc : (get_state payload store.sessions).step ≠ Step.HANDOFF
      ∧ (next_reply payload.practice_name payload.user_message
          (get_state payload store.sessions)).2.step = Step.HANDOFF := h
  simp only [webchat_message]
  rw [if_pos hc]
  exact ⟨rfl, rfl⟩

theorem webchat_neg (now : String) (payload : IncomingMessage) (store : Store)
    (h : ¬ ticketEdge payload store) :
    (webchat_message now payload store).1.ticket = none
    ∧ (webchat_message now payload store).2.tickets = store.tickets := by
  have hc : ¬ ((get_state payload store.sessions).step ≠ Step.HANDOFF
      ∧ (next_reply payload.practice_name payload.user_message
          (get_state payload store.sessions)).2.step = Step.HANDOFF) := h
  simp only [webchat_message]
  rw [if_neg hc]
  exact ⟨rfl, rfl⟩

theorem updateCollected_idem (c : Collected) (text : String) :
    updateCollected (updateCollected c text) text = updateCollected c text := by
  dsimp only [updateCollected]
  rw [Collected.mk.injEq]
  refine ⟨?_, ?_, ?_⟩
  · exact setIfBlank_twice_two c.name _ _
      (fun v hv => nameFromLabel_nonempty text (lower text) v hv)
      (fun v hv => nameFromPhrase_nonempty text (lower text) v hv)
  · exact setIfBlank_twice_two c.phone _ _
      (fun v hv => phoneFromLabel_nonempty text (lower text) v hv)
      (fun v hv => phoneFallback_nonempty text v hv)
  · exact setIfBlank_twice_one c.best_time _
      (fun v hv => bestTimeFromText_nonempty text (lower text) v hv)

-- ---------------------------
-- Claim theorems
-- ---------------------------

/-- C1: whenever the medical-topic detector fires on the user text,
`next_reply` returns exactly the limited-response template for the practice
name together with the prior state whose step is forced to
`LIMITED_RESPONSE`, leaving the collected contact fields (and every other
field) unchanged, regardless of the prior step and of any FAQ keyword in
the text. -/
theorem next_reply_medical_gate (p t : String) (st : SessionState)
    (h : is_medical_or_medication_question t = true) :
    next_reply p t st = (limited_response_policy p, { st with step := Step.LIMITED_RESPONSE }) := by
  simp [next_reply, h]

theorem next_reply_medical_gate_witness :
    is_medical_or_medication_question "what antibiotic should I take" = true
    ∧ next_reply "Example Dental Clinic" "what antibiotic should I take" handedState
        = (limited_response_policy "Example Dental Clinic",
           { handedState with step := Step.LIMITED_RESPONSE }) :=
  ⟨by decide,
   next_reply_medical_gate "Example Dental Clinic" "what antibiotic should I take" handedState
     (by decide)⟩

/-- C4 counterexample: from a `HANDOFF` state a medical message moves the
step to `LIMITED_RESPONSE`, so `HANDOFF` is not terminal under the medical
gate, contrary to the claim. -/
theorem handoff_not_terminal_on_medical :
    handedState.step = Step.HANDOFF
    ∧ (next_reply "Example Dental Clinic" "what dose should i take" handedState).2.step
        = Step.LIMITED_RESPONSE := by
  constructor
  · rfl
  · decide

/-- C4 (amended): `HANDOFF` is stable for messages that neither trigger the
medical gate nor match any FAQ entry: `next_reply` returns the static
acknowledgment and the state unchanged, with no extraction run. -/
theorem handoff_terminal_without_gate_or_faq (p t : String) (st : SessionState)
    (hm : is_medical_or_medication_question t = false)
    (hf : match_faq_intent t = none)
    (hs : st.step = Step.HANDOFF) :
    next_reply p t st = ("Thanks — your request is with the team at " ++ p ++ ".", st) := by
  simp [next_reply, hm, hf, hs]

theorem handoff_terminal_without_gate_or_faq_witness :
    next_reply "Example Dental Clinic" "hello" handedState
      = ("Thanks — your request is with the team at " ++ "Example Dental Clinic" ++ ".",
         handedState) :=
  handoff_terminal_without_gate_or_faq "Example Dental Clinic" "hello" handedState
    (by decide) (by decide) rfl

/-- C6: FAQ matching is first-match-wins in declared catalog order:
if the entry at index `i` of `FAQ` has a keyword hit in the lower-cased
text and no earlier entry has one, `match_faq_intent` returns that entry. -/
theorem match_faq_first_match (t : String) (i : Nat) (hi : i < FAQ.length)
    (hhit : hitsKeywords (lower t) (FAQ.get ⟨i, hi⟩) = true)
    (hmin : ∀ j (hj : j < i), hitsKeywords (lower t) (FAQ.get ⟨j, Nat.lt_trans hj hi⟩) = false) :
    match_faq_intent t = some (FAQ.get ⟨i, hi⟩) :=
  match_loop_first (lower t) FAQ i hi hhit hmin

theorem match_faq_first_match_witness :
    match_faq_intent "do you have weekend hours? i want to book an appointment"
      = some (FAQ.get ⟨0, by decide⟩)
    ∧ (FAQ.get ⟨0, by decide⟩).key = "hours"
    ∧ (next_reply "Example Dental Clinic"
        "do you have weekend hours? i want to book an appointment" defaultState).1
      = "Our opening hours are: Mon–Fri 08:00–18:00." := by
  refine ⟨?_, by decide, by decide⟩
  exact match_faq_first_match "do you have weekend hours? i want to book an appointment"
    0 (by decide) (by decide) (fun j hj => absurd hj (Nat.not_lt_zero j))

/-- C7: when a non-forcing FAQ entry matches while the step is
`COLLECT_CONTACT` (and the medical gate does not fire), `next_reply`
answers the FAQ with a missing-fields reminder computed from the current
collected state and returns the input state unchanged — the contact
extractor is not run in this branch. -/
theorem faq_during_collection_frame (p t : String) (st : SessionState) (e : FaqItem)
    (hm : is_medical_or_medication_question t = false)
    (hf : match_faq_intent t = some e)
    (hforce : e.forces_contact_flow = false)
    (hstep : st.step = Step.COLLECT_CONTACT) :
    next_reply p t st
      = (if (missingList st.collected).isEmpty then e.answer
         else e.answer ++ "\n\nTo proceed, I still need your "
           ++ String.intercalate ", " (missingList st.collected) ++ ".",
         st) := by
  simp [next_reply, hm, hf, hforce, hstep]

theorem faq_during_collection_frame_witness :
    (next_reply "Example Dental Clinic" faqNameMsg presetNameState).2 = presetNameState
    ∧ (update_collected_from_text presetNameState faqNameMsg).collected.phone
        = presetNameState.collected.phone
    ∧ (update_collected_from_text defaultState faqNameMsg).collected.name = some "Alex Smith" := by
  have h := faq_during_collection_frame "Example Dental Clinic" faqNameMsg presetNameState
    (FAQ.get ⟨0, by decide⟩) (by decide) (by decide) (by decide) rfl
  exact ⟨by rw [h], by decide, by decide⟩

/-- C10: the hours FAQ keywords include `"tomorrow"`, so the message
`"tomorrow morning"` sent while collecting contact details is answered by
the (non-forcing) hours entry with a missing-fields reminder and the state
is unchanged — `best_time` stays unset even though the extractor, had it
run, would have captured exactly this canned phrase. -/
theorem bestTime_phrase_shadowed_by_hours_faq :
    match_faq_intent "tomorrow morning" = some (FAQ.get ⟨0, by decide⟩)
    ∧ (FAQ.get ⟨0, by decide⟩).forces_contact_flow = false
    ∧ next_reply "Example Dental Clinic" "tomorrow morning" collectingState
        = ("Our opening hours are: Mon–Fri 08:00–18:00.\n\nTo proceed, I still need your name, phone number, best time to call.",
           collectingState)
    ∧ collectingState.collected.best_time = none
    ∧ (update_collected_from_text collectingState "tomorrow morning").collected.best_time
        = some "tomorrow morning"
    ∧ "tomorrow morning" ∈ bestTimePhrases := by
  refine ⟨by decide, by decide, by decide, rfl, by decide, by decide⟩

/-- C2 counterexample: a field populated with the empty string is falsy for
the `if not state.collected.name` guard and is overwritten by a later
extraction, so the extractor is not non-destructive for every populated
field as claimed. -/
theorem update_overwrites_blank_name :
    blankNameState.collected.name = some ""
    ∧ (update_collected_from_text blankNameState "My name is Alex").collected.name
        = some "Alex" :=
  ⟨rfl, by decide⟩

/-- C2 (amended): the extractor is non-destructive for every field populated
with a non-empty string (first-write-wins), and it is idempotent: applying
it twice with the same text yields the same state as applying it once. -/
theorem update_first_write_wins_idem (st : SessionState) (t : String) :
    (∀ v, st.collected.name = some v → v.toList.isEmpty = false →
        (update_collected_from_text st t).collected.name = some v)
    ∧ (∀ v, st.collected.phone = some v → v.toList.isEmpty = false →
        (update_collected_from_text st t).collected.phone = some v)
    ∧ (∀ v, st.collected.best_time = some v → v.toList.isEmpty = false →
        (update_collected_from_text st t).collected.best_time = some v)
    ∧ update_collected_from_text (update_collected_from_text st t) t
        = update_collected_from_text st t := by
  refine ⟨?_, ?_, ?_, ?_⟩
  · intro v hv hne
    dsimp only [update_collected_from_text, updateCollected]
    rw [hv]
    have hnb := blankOpt_some_of_nonempty v hne
    rw [setIfBlank_not_blank _ _ hnb, setIfBlank_not_blank _ _ hnb]
  · intro v hv hne
    dsimp only [update_collected_from_text, updateCollected]
    rw [hv]
    have hnb := blankOpt_some_of_nonempty v hne
    rw [setIfBlank_not_blank _ _ hnb, setIfBlank_not_blank _ _ hnb]
  · intro v hv hne
    dsimp only [update_collected_from_text, updateCollected]
    rw [hv]
    have hnb := blankOpt_some_of_nonempty v hne
    rw [setIfBlank_not_blank _ _ hnb]
  · dsimp only [update_collected_from_text]
    rw [updateCollected_idem]

theorem update_first_write_wins_idem_witness :
    presetNameState.collected.name = some "Alex"
    ∧ (update_collected_from_text presetNameState "My name is Jordan").collected.name
        = some "Alex"
    ∧ update_collected_from_text
        (update_collected_from_text presetNameState "My name is Jordan") "My name is Jordan"
        = update_collected_from_text presetNameState "My name is Jordan" := by
  have h := update_first_write_wins_idem presetNameState "My name is Jordan"
  exact ⟨rfl, h.1 "Alex" rfl (by decide), h.2.2.2⟩

/-- C5: the extractor changes the phone field only to an accepted candidate:
a digit/plus string with at least nine digits (excluding `+`); a message
with fewer than nine digits in total leaves the phone field unchanged; and
`"My phone is 0043 664 1234567"` is captured through the fallback (no phone
label is found) as the digit-only string `"00436641234567"` of length 14. -/
theorem phone_threshold_spec (st : SessionState) (t : String) :
    ((update_collected_from_text st t).collected.phone ≠ st.collected.phone →
      ∃ p, (update_collected_from_text st t).collected.phone = some p
        ∧ 9 ≤ countNonPlus p
        ∧ p.toList.all (fun c => c.isDigit || c == '+') = true)
    ∧ (digitCount t < 9 →
        (update_collected_from_text st t).collected.phone = st.collected.phone)
    ∧ phoneFromLabel (strStrip phoneMsg) (lower (strStrip phoneMsg)) = none
    ∧ (update_collected_from_text defaultState phoneMsg).collected.phone = some "00436641234567"
    ∧ countNonPlus "00436641234567" = 14 := by
  refine ⟨?_, ?_, by decide, by decide, by decide⟩
  · intro hne
    dsimp only [update_collected_from_text, updateCollected] at hne ⊢
    cases hb : blankOpt st.collected.phone with
    | false =>
      rw [setIfBlank_not_blank _ _ hb, setIfBlank_not_blank _ _ hb] at hne
      exact absurd rfl hne
    | true =>
      cases hL : phoneFromLabel (strStrip t) (lower (strStrip t)) with
      | some d =>
        have hd := phoneFromLabel_some _ _ d hL
        have hnb : blankOpt (some d) = false :=
          blankOpt_some_of_nonempty d (nonempty_of_nine d hd.1)
        rw [setIfBlank_blank_some _ _ hb, setIfBlank_not_blank _ _ hnb]
        exact ⟨d, rfl, hd.1, hd.2⟩
      | none =>
        rw [hL] at hne
        rw [setIfBlank_none] at hne ⊢
        cases hF : phoneFallback (strStrip t) with
        | some d =>
          have hd := phoneFallback_some _ d hF
          rw [setIfBlank_blank_some _ _ hb]
          exact ⟨d, rfl, hd.1, hd.2⟩
        | none =>
          rw [hF, setIfBlank_none] at hne
          exact absurd rfl hne
  · intro hlt
    have hs : digitCount (strStrip t) ≤ digitCount t :=
      filter_length_le_of_sublist _ (strStrip_sublist t)
    have hL : phoneFromLabel (strStrip t) (lower (strStrip t)) = none :=
      phoneFromLabel_none_of_few _ _ (by omega)
    have hF : phoneFallback (strStrip t) = none :=
      phoneFallback_none_of_few _ (by omega)
    dsimp only [update_collected_from_text, updateCollected]
    rw [hL, hF, setIfBlank_none, setIfBlank_none]

theorem phone_threshold_spec_witness :
    (∃ p, (update_collected_from_text defaultState phoneMsg).collected.phone = some p
      ∧ 9 ≤ countNonPlus p
      ∧ p.toList.all (fun c => c.isDigit || c == '+') = true)
    ∧ (update_collected_from_text defaultState "call me at 555").collected.phone
        = defaultState.collected.phone := by
  have h1 := phone_threshold_spec defaultState phoneMsg
  have h2 := phone_threshold_spec defaultState "call me at 555"
  exact ⟨h1.1 (by decide), h2.2.1 (by decide)⟩

/-- C3 counterexample: for a session whose stored step is already `HANDOFF`,
two consecutive calls both end with step `HANDOFF` yet zero tickets are
issued in total, so such a pair does not always issue exactly one ticket. -/
theorem webchat_double_handoff_no_ticket :
    (webchat_message "t1" helloPayload handedStore).1.state.step = Step.HANDOFF
    ∧ (webchat_message "t2" helloPayload
        (webchat_message "t1" helloPayload handedStore).2).1.state.step = Step.HANDOFF
    ∧ (webchat_message "t2" helloPayload
        (webchat_message "t1" helloPayload handedStore).2).2.tickets.length = 0
    ∧ handedStore.tickets.length = 0 := by
  refine ⟨by decide, by decide, by decide, rfl⟩

/-- C3 (amended): the handler returns a non-null ticket summary and appends
exactly one ticket if and only if the step snapshotted before this turn is
not `HANDOFF` while the returned state's step is `HANDOFF` (otherwise the
ticket list is unchanged); consequently two consecutive calls for the same
session (the second reading the stored state) that both end in `HANDOFF`
issue at most one ticket in total, and exactly one when the step before the
first call was not `HANDOFF`. -/
theorem webchat_ticket_edge_trigger (now : String) (payload : IncomingMessage) (store : Store) :
    ((webchat_message now payload store).1.ticket.isSome = true ↔ ticketEdge payload store)
    ∧ (ticketEdge payload store →
        (webchat_message now payload store).2.tickets.length = store.tickets.length + 1)
    ∧ (¬ ticketEdge payload store →
        (webchat_message now payload store).2.tickets = store.tickets)
    ∧ (∀ now2 (payload2 : IncomingMessage),
        payload2.session_id = payload.session_id →
        payload2.state = none →
        payload2.prior_state = none →
        (webchat_message now payload store).1.state.step = Step.HANDOFF →
        (webchat_message now2 payload2 (webchat_message now payload store).2).1.state.step
          = Step.HANDOFF →
        ((webchat_message now2 payload2 (webchat_message now payload store).2).2.tickets.length
            ≤ store.tickets.length + 1
         ∧ ((get_state payload store.sessions).step ≠ Step.HANDOFF →
            (webchat_message now2 payload2 (webchat_message now payload store).2).2.tickets.length
              = store.tickets.length + 1))) := by
  refine ⟨?_, ?_, ?_, ?_⟩
  · constructor
    · intro hsome
      by_cases hc : ticketEdge payload store
      · exact hc
      · rw [(webchat_neg now payload store hc).1] at hsome
        exact absurd hsome (by simp)
    · intro hc
      exact (webchat_pos now payload store hc).1
  · intro hc
    exact (webchat_pos now payload store hc).2
  · intro hc
    exact (webchat_neg now payload store hc).2
  · intro now2 p2 hsid hst hpr h1 h2
    have hnew1 : (next_reply payload.practice_name payload.user_message
        (get_state payload store.sessions)).2.step = Step.HANDOFF := by
      rw [← webchat_state now payload store]
      exact h1
    have hold2 : get_state p2 (webchat_message now payload store).2.sessions
        = (next_reply payload.practice_name payload.user_message
            (get_state payload store.sessions)).2 := by
      rw [webchat_sessions now payload store]
      simp [get_state, hst, hpr, save_state, hsid]
    have hnc2 : ¬ ticketEdge p2 (webchat_message now payload store).2 := by
      intro hcon
      exact hcon.1 (by rw [hold2]; exact hnew1)
    have ht2 := (webchat_neg now2 p2 _ hnc2).2
    by_cases hc1 : ticketEdge payload store
    · have hl1 := (webchat_pos now payload store hc1).2
      constructor
      · rw [ht2, hl1]
      · intro _
        rw [ht2, hl1]
    · have hl1 := (webchat_neg now payload store hc1).2
      constructor
      · rw [ht2, hl1]
        exact Nat.le_succ _
      · intro hpre
        exact absurd ⟨hpre, hnew1⟩ hc1

theorem webchat_ticket_edge_trigger_witness :
    (webchat_message "t1" bookingPayload emptyStore).1.ticket.isSome = true
    ∧ (webchat_message "t1" bookingPayload emptyStore).2.tickets.length
        = emptyStore.tickets.length + 1
    ∧ (webchat_message "t2" ackPayload
        (webchat_message "t1" bookingPayload emptyStore).2).2.tickets.length
        = emptyStore.tickets.length + 1 := by
  have h := webchat_ticket_edge_trigger "t1" bookingPayload emptyStore
  refine ⟨h.1.mpr ⟨by decide, by decide⟩, h.2.1 ⟨by decide, by decide⟩, ?_⟩
  exact (h.2.2.2 "t2" ackPayload rfl rfl rfl (by decide) (by decide)).2 (by decide)

/-- C8: `create_ticket` increments the process-wide counter by one (so the
first ticket, issued from the initial store, is `"T-0001"`), formats the id
as `"T-"` followed by the counter zero-padded to four digits (wider values
keep all their digits: the padded form has length `max 4` the plain form
and always ends in the plain decimal form), copies the collected fields
with empty-string defaults, sets status `"OPEN"`, inserts the ticket at the
head of the ticket list, and the counter strictly increases and is never
reset by a session reset. -/
theorem create_ticket_spec (now sid pn summary : String) (st : SessionState) (store : Store)
    (n : Nat) (sid2 : String) :
    (create_ticket now sid pn st summary store).2.counter = store.counter + 1
    ∧ (create_ticket now sid pn st summary store).1.ticket_id = "T-" ++ pad4 (store.counter + 1)
    ∧ (create_ticket now sid pn st summary store).1.created_at = now
    ∧ (create_ticket now sid pn st summary store).1.session_id = sid
    ∧ (create_ticket now sid pn st summary store).1.practice_name = pn
    ∧ (create_ticket now sid pn st summary store).1.name = st.collected.name.getD ""
    ∧ (create_ticket now sid pn st summary store).1.phone = st.collected.phone.getD ""
    ∧ (create_ticket now sid pn st summary store).1.best_time = st.collected.best_time.getD ""
    ∧ (create_ticket now sid pn st summary store).1.summary = summary
    ∧ (create_ticket now sid pn st summary store).1.status = "OPEN"
    ∧ (create_ticket now sid pn st summary store).2.tickets
        = (create_ticket now sid pn st summary store).1 :: store.tickets
    ∧ store.counter < (create_ticket now sid pn st summary store).2.counter
    ∧ (reset_session sid2 store).counter = store.counter
    ∧ (pad4 n).toList.length = max 4 (Nat.repr n).toList.length
    ∧ (Nat.repr n).toList.IsSuffix (pad4 n).toList
    ∧ (create_ticket "t0" "s0" clinic_name defaultState "m0" emptyStore).1.ticket_id = "T-0001" := by
  refine ⟨rfl, rfl, rfl, rfl, rfl, rfl, rfl, rfl, rfl, rfl, rfl,
    Nat.lt_succ_self _, rfl, ?_, ?_, by decide⟩
  · unfold pad4
    simp only []
    split
    · rename_i hlt
      show (List.replicate (4 - (Nat.repr n).toList.length) '0' ++ (Nat.repr n).toList).length
        = max 4 (Nat.repr n).toList.length
      rw [List.length_append, List.length_replicate]
      omega
    · rename_i hge
      omega
  · unfold pad4
    simp only []
    split
    · show (Nat.repr n).toList.IsSuffix
        (List.replicate (4 - (Nat.repr n).toList.length) '0' ++ (Nat.repr n).toList)
      exact List.suffix_append _ _
    · exact List.suffix_refl _

/-- C9: resetting a session removes that session's entry from the session
map, removes exactly the tickets whose session id matches (tickets of other
sessions are kept, in order), succeeds on unknown sessions, and is
idempotent. -/
theorem reset_session_spec (sid : String) (store : Store) :
    (reset_session sid store).sessions sid = none
    ∧ (∀ k, k ≠ sid → (reset_session sid store).sessions k = store.sessions k)
    ∧ (∀ t, t ∈ (reset_session sid store).tickets → t.session_id ≠ sid)
    ∧ (reset_session sid store).tickets.Sublist store.tickets
    ∧ (∀ t, t ∈ store.tickets → t.session_id ≠ sid → t ∈ (reset_session sid store).tickets)
    ∧ reset_session sid (reset_session sid store) = reset_session sid store := by
  refine ⟨?_, ?_, ?_, ?_, ?_, ?_⟩
  · simp [reset_session]
  · intro k hk
    simp [reset_session, hk]
  · intro t ht
    exact bne_iff_ne.mp (List.mem_filter.mp ht).2
  · exact List.filter_sublist _
  · intro t ht hne
    exact List.mem_filter.mpr ⟨ht, bne_iff_ne.mpr hne⟩
  · unfold reset_session
    rw [Store.mk.injEq]
    refine ⟨funext fun k => ?_, ?_, rfl⟩
    · by_cases hk : k = sid <;> simp [hk]
    · rw [List.filter_filter]
      exact List.filter_congr (fun x _ => by rw [Bool.and_self])

theorem reset_session_spec_witness :
    (reset_session "a" resetStore).sessions "a" = none
    ∧ (reset_session "a" resetStore).sessions "b" = resetStore.sessions "b"
    ∧ tickB ∈ (reset_session "a" resetStore).tickets
    ∧ tickB.session_id ≠ "a"
    ∧ (reset_session "a" resetStore).counter = resetStore.counter
    ∧ reset_session "a" (reset_session "a" resetStore) = reset_session "a" resetStore := by
  have h := reset_session_spec "a" resetStore
  exact ⟨h.1, h.2.1 "b" (by decide), h.2.2.2.2.1 tickB (by decide) (by decide),
    h.2.2.1 tickB (by decide), rfl, h.2.2.2.2.2⟩

end Frontdesk
